import Mathlib

/-!
Shallow embedding of the shipment controller of the smart-truck-loading
backend (src/backend/src/controllers/shipment.controller.ts) together with
the shipment model (src/backend/src/models/shipment.model.ts).

Modelling decisions:
* JavaScript numbers are modelled as exact extended rationals (`JNum`):
  a finite rational, NaN, or a signed infinity.  None of the controller
  logic depends on floating-point rounding of field values.
* Untrusted request values (`unknown` in TypeScript) are modelled by the
  inductive `JSValue`; a missing object key reads as `JSValue.undefined`,
  exactly as property access on a missing key yields `undefined` in JS.
* Statuses are the literal canonical strings, as at runtime (the
  TypeScript `ShipmentStatus` enum is string-valued).
* Mongoose document ids are modelled as `Nat`; the repository is a list
  of stored shipments plus a fresh-id counter.  Repository calls never
  raise in the model, so the `catch`/500 branches of the controller are
  unreachable and not represented.
-/

/-- A JavaScript number: finite value, NaN, or a signed infinity. -/
inductive JNum where
  | finite (q : ℚ)
  | nan
  | posInf
  | negInf
deriving DecidableEq, Repr

/-- Models `Number.isFinite`. -/
def JNum.isFinite : JNum → Bool
  | .finite _ => true
  | _ => false

/-- Models the comparison `x > 0` on a JS number (false for NaN). -/
def JNum.gtZero : JNum → Bool
  | .finite q => 0 < q
  | .posInf => true
  | _ => false

/-- The finite value of a JS number (0 for NaN and the infinities; only
used in positions the source guards with `Number.isFinite`). -/
def JNum.toQ : JNum → ℚ
  | .finite q => q
  | _ => 0

/-- An untrusted JavaScript value, as received in a request body
(`unknown` in the TypeScript source).  `undefined` doubles as the absent
key.  `date none` is an Invalid Date (its time value is NaN);
`date (some t)` is a valid Date with time value `t`. -/
inductive JSValue where
  | num (n : JNum)
  | str (s : String)
  | bool (b : Bool)
  | date (t : Option Int)
  | null
  | undefined
  | object
deriving DecidableEq, Repr

/-- Models the JS nullish test (`undefined` or `null`), as used by `??`. -/
def JSValue.isNullish : JSValue → Bool
  | .undefined => true
  | .null => true
  | _ => false

/-- Models `String.prototype.trim`: strips leading and trailing
whitespace.  (Defined over the character list so that it evaluates by
kernel reduction; behaviour matches the builtin trim.) -/
def jsTrim (s : String) : String :=
  String.mk (((s.data.dropWhile Char.isWhitespace).reverse.dropWhile
    Char.isWhitespace).reverse)

/-- Models the nullish-coalescing operator `a ?? b`. -/
def nullishCoalesce (a b : JSValue) : JSValue :=
  if a.isNullish then b else a

/-- Decimal digits of a nonempty all-digit character list, as a `Nat`. -/
def parseNatDigits (cs : List Char) : Option Nat :=
  if cs ≠ [] ∧ cs.all Char.isDigit then
    some (cs.foldl (fun acc c => acc * 10 + (c.toNat - 48)) 0)
  else none

/-- Models `Number(s)` for a string argument (the JS ToNumber string
grammar).  Trimmed empty string is 0; the `Infinity` spellings map to
the infinities; an unsigned `0x`/`0X`, `0o`/`0O` or `0b`/`0B` prefix
starts a radix-16/8/2 integer literal; otherwise an optional sign, a
decimal mantissa with an optional fraction part, and an optional
decimal exponent; anything else is NaN. -/
def strToNum (s : String) : JNum :=
  let t := jsTrim s
  if t = "" then .finite 0
  else if t = "Infinity" ∨ t = "+Infinity" then .posInf
  else if t = "-Infinity" then .negInf
  else
    match t.data with
    | '0' :: 'x' :: ds => radix 16 ds
    | '0' :: 'X' :: ds => radix 16 ds
    | '0' :: 'o' :: ds => radix 8 ds
    | '0' :: 'O' :: ds => radix 8 ds
    | '0' :: 'b' :: ds => radix 2 ds
    | '0' :: 'B' :: ds => radix 2 ds
    | cs =>
      match parseSigned cs with
      | some q => .finite q
      | none => .nan
where
  /-- value of one digit character, bases up to 16 -/
  radixDigitVal (c : Char) : Option Nat :=
    if '0' ≤ c ∧ c ≤ '9' then some (c.toNat - 48)
    else if 'a' ≤ c ∧ c ≤ 'f' then some (c.toNat - 87)
    else if 'A' ≤ c ∧ c ≤ 'F' then some (c.toNat - 55)
    else none
  /-- accumulates base-`b` digits; any out-of-range character is NaN -/
  radixFold (b : Nat) : Nat → List Char → Option Nat
    | acc, [] => some acc
    | acc, c :: cs =>
      match radixDigitVal c with
      | some d => if d < b then radixFold b (acc * b + d) cs else none
      | none => none
  /-- a nonempty all-digit radix literal after the prefix -/
  radix (b : Nat) (ds : List Char) : JNum :=
    if ds = [] then .nan
    else
      match radixFold b 0 ds with
      | some n => .finite n
      | none => .nan
  /-- builds the rational (sign * digits / 10 ^ fracLen) * 10 ^ exp
  using integer arithmetic only -/
  assemble (sign : Int) (digits : Nat) (fracLen : Nat) (exp : Int) : ℚ :=
    match exp with
    | .ofNat e => mkRat (sign * (digits * 10 ^ e : Nat)) (10 ^ fracLen)
    | .negSucc e => mkRat (sign * (digits : Nat)) (10 ^ fracLen * 10 ^ (e + 1))
  /-- optional sign before a decimal literal -/
  parseSigned : List Char → Option ℚ
    | '+' :: rest => parseMantissa 1 rest
    | '-' :: rest => parseMantissa (-1) rest
    | cs => parseMantissa 1 cs
  /-- `digits`, `digits.digits`, `digits.`, `.digits`, each with an
  optional exponent -/
  parseMantissa (sign : Int) (cs : List Char) : Option ℚ :=
    let intPart := cs.takeWhile Char.isDigit
    let rest := cs.dropWhile Char.isDigit
    match rest with
    | [] =>
      (parseNatDigits intPart).map (fun n => assemble sign n 0 0)
    | '.' :: rest2 =>
      let fracPart := rest2.takeWhile Char.isDigit
      let rest3 := rest2.dropWhile Char.isDigit
      if intPart = [] ∧ fracPart = [] then none
      else
        let digits :=
          (parseNatDigits intPart).getD 0 * 10 ^ fracPart.length +
            (parseNatDigits fracPart).getD 0
        (parseExponent rest3).map (fun e => assemble sign digits fracPart.length e)
    | 'e' :: _ | 'E' :: _ =>
      if intPart = [] then none
      else
        (parseExponent rest).map
          (fun e => assemble sign ((parseNatDigits intPart).getD 0) 0 e)
    | _ => none
  /-- empty (exponent 0) or `e`/`E`, optional sign, digits -/
  parseExponent : List Char → Option Int
    | [] => some 0
    | 'e' :: rest => parseExponentDigits rest
    | 'E' :: rest => parseExponentDigits rest
    | _ => none
  parseExponentDigits : List Char → Option Int
    | '+' :: ds => (parseNatDigits ds).map Int.ofNat
    | '-' :: ds => (parseNatDigits ds).map (fun n => -(n : Int))
    | ds => (parseNatDigits ds).map Int.ofNat

/-- Follows the words of the spec for the numeric coercion: standard
decimal parsing of a string — the decimal fragment of `Number` with no
radix-prefixed literal forms.  Declared only to compare the claimed
coercion against the `Number` model `strToNum`. -/
def decimalStrToNum (s : String) : JNum :=
  let t := jsTrim s
  if t = "" then .finite 0
  else if t = "Infinity" ∨ t = "+Infinity" then .posInf
  else if t = "-Infinity" then .negInf
  else
    match strToNum.parseSigned t.data with
    | some q => .finite q
    | none => .nan

/-- Models `new Date(s)` for a string argument, restricted to the
ISO-8601 UTC forms `YYYY-MM-DD` and `YYYY-MM-DDTHH:MM:SSZ` that the
application exchanges.  Returns a timestamp for a well-formed in-range
date and `none` (an Invalid Date) otherwise.  The numeric timestamp is a
strictly monotone encoding of the date fields rather than Unix epoch
milliseconds; no controller logic inspects the numeric value. -/
def parseDateString (s : String) : Option Int :=
  match s.toList with
  | [y1, y2, y3, y4, '-', m1, m2, '-', d1, d2] =>
    encodeDate [y1, y2, y3, y4] [m1, m2] [d1, d2] [] [] []
  | [y1, y2, y3, y4, '-', m1, m2, '-', d1, d2, 'T',
     h1, h2, ':', n1, n2, ':', s1, s2, 'Z'] =>
    encodeDate [y1, y2, y3, y4] [m1, m2] [d1, d2] [h1, h2] [n1, n2] [s1, s2]
  | _ => none
where
  encodeDate (ys ms ds hs ns ss : List Char) : Option Int := do
    let y ← parseNatDigits ys
    let mo ← parseNatDigits ms
    let da ← parseNatDigits ds
    let h ← if hs = [] then pure 0 else parseNatDigits hs
    let mi ← if ns = [] then pure 0 else parseNatDigits ns
    let se ← if ss = [] then pure 0 else parseNatDigits ss
    if 1 ≤ mo ∧ mo ≤ 12 ∧ 1 ≤ da ∧ da ≤ 31 ∧ h ≤ 23 ∧ mi ≤ 59 ∧ se ≤ 59 then
      pure (((((((y * 12 + mo) * 31 + da) * 24 + h) * 60 + mi) * 60 + se : Nat) : Int) * 1000)
    else none

/-- Models the JS coercion `Number(v)` for the value kinds the
controller can reach (numbers and strings; the other rows follow the JS
coercion table but are unreachable behind `isPositiveNumber`). -/
def jsToNumber : JSValue → JNum
  | .num n => n
  | .str s => strToNum s
  | .bool b => .finite (if b then 1 else 0)
  | .null => .finite 0
  | _ => .nan

/-- `isPositiveNumber` from the controller: a finite number greater than
zero, or a string whose `Number(...)` parse is finite and greater than
zero; every other value kind is rejected. -/
def isPositiveNumber : JSValue → Bool
  | .num n => n.isFinite && n.gtZero
  | .str s => (strToNum s).isFinite && (strToNum s).gtZero
  | _ => false

/-- `parseDeadline` from the controller: only strings and `Date`
instances are considered; a string is parsed with `new Date`, a `Date`
is kept; an Invalid Date (NaN time value) yields `null`. -/
def parseDeadline : JSValue → Option Int
  | .str s => parseDateString s
  | .date (some t) => some t
  | .date none => none
  | _ => none

/-- A request body (`Record<string, unknown>`): the six keys the
controller reads.  A key the client did not send holds
`JSValue.undefined`.  (`isOptimized` is carried to show the controller
never reads it.) -/
structure Body where
  weight : JSValue
  volume : JSValue
  destination : JSValue
  deadline : JSValue
  date : JSValue
  status : JSValue
  isOptimized : JSValue
deriving DecidableEq, Repr

/-- The `payload` object accumulated by `validateShipmentPayload`
(`Partial<ValidatedShipmentPayload>` in the source): each field is
present only if its rule passed. -/
structure ShipmentPayloadFields where
  weight : Option ℚ
  volume : Option ℚ
  destination : Option String
  deadline : Option Int
deriving DecidableEq, Repr

/-- `validateShipmentPayload` from the controller: collects the error
message of every violated rule, in source order, and assigns the
coerced value for every rule that passed.  The deadline is read from
`body.deadline ?? body.date ?? null`. -/
def validateShipmentPayload (body : Body) : List String × ShipmentPayloadFields :=
  let wOk := isPositiveNumber body.weight
  let vOk := isPositiveNumber body.volume
  let dOk := match body.destination with
    | .str s => (jsTrim s).length != 0
    | _ => false
  let dl := parseDeadline (nullishCoalesce body.deadline (nullishCoalesce body.date .null))
  ( (if wOk then [] else ["Weight must be a number greater than 0"]) ++
    (if vOk then [] else ["Volume must be a number greater than 0"]) ++
    (if dOk then [] else ["Destination is required"]) ++
    (if dl.isSome then [] else ["Deadline must be a valid ISO date string"]),
    { weight := if wOk then some (jsToNumber body.weight).toQ else none
      volume := if vOk then some (jsToNumber body.volume).toQ else none
      destination := match body.destination with
        | .str s => if (jsTrim s).length != 0 then some (jsTrim s) else none
        | _ => none
      deadline := dl } )

/-- `statusFlow` from the controller: the ordered status sequence. -/
def statusFlow : List String :=
  ["Pending", "Optimized", "Booked", "In Transit"]

/-- JS `Array.prototype.indexOf`: index of the first occurrence, or -1. -/
def jsIndexOf (l : List String) (s : String) : Int :=
  match l.findIdx? (fun a => a = s) with
  | some i => (i : Int)
  | none => -1

/-- `isValidStatusTransition` from the controller. -/
def isValidStatusTransition (current next : String) : Bool :=
  let currentIndex := jsIndexOf statusFlow current
  let nextIndex := jsIndexOf statusFlow next
  if currentIndex = -1 ∨ nextIndex = -1 then false
  else nextIndex == currentIndex + 1

example : isValidStatusTransition "Pending" "Optimized" = true := by decide
example : isValidStatusTransition "Pending" "Booked" = false := by decide
example : isValidStatusTransition "In Transit" "Pending" = false := by decide
example : isPositiveNumber (.str "3.5") = true := by decide
example : isPositiveNumber (.str "-1") = false := by decide
example : isPositiveNumber (.str "abc") = false := by decide
example : (parseDateString "2025-01-01T00:00:00Z").isSome = true := by decide

/-! ## The shipment store and the controller operations -/

/-- A persisted shipment document (`Shipment` in the mongoose model),
with the system-generated id and the owner made explicit. -/
structure StoredShipment where
  id : Nat
  warehouseId : String
  weight : ℚ
  volume : ℚ
  destination : String
  deadline : Int
  status : String
  isOptimized : Bool
deriving DecidableEq, Repr

/-- The document store: the shipment collection plus the fresh-id
counter the database uses for system-generated ids. -/
structure Store where
  nextId : Nat
  shipments : List StoredShipment
deriving DecidableEq, Repr

/-- Models `Shipment.findOne({ _id: id, warehouseId })`: the document
matching both the id and the owner, if any. -/
def findOwned (shipments : List StoredShipment) (id : Nat) (warehouseId : String) :
    Option StoredShipment :=
  shipments.find? (fun s => s.id == id && s.warehouseId == warehouseId)

/-- The user role attached to a request by the auth middleware. -/
inductive UserRole where
  | warehouse
  | dealer
deriving DecidableEq, Repr

/-- An `AuthenticatedRequest`: the principal fields set by the auth
middleware (absent when authentication did not run or failed), the
body, and the `:id` route parameter (for update and delete). -/
structure AuthenticatedRequest where
  userId : Option String
  role : Option UserRole
  body : Body
  paramId : Nat
deriving DecidableEq, Repr

/-- Outcome of `createShipment`, keyed by the HTTP response shape. -/
inductive CreateResult where
  | unauthenticated
  | forbidden
  | validationFailed (details : List String)
  | created (shipment : StoredShipment)
deriving DecidableEq, Repr

/-- `createShipment` from the controller: auth check, role check,
payload validation, then persistence with `status` forced to Pending
and `isOptimized` forced to false.  In the source the 400 guard is
`errors.length > 0 || !payload.weight || ...`; the payload fields are
truthy whenever present (positive numbers, a nonempty string, a Date
object), so the truthiness tests are exactly presence tests. -/
def createShipment (req : AuthenticatedRequest) (store : Store) :
    CreateResult × Store :=
  match req.userId with
  | none => (.unauthenticated, store)
  | some uid =>
    if req.role ≠ some .warehouse then (.forbidden, store)
    else
      let v := validateShipmentPayload req.body
      if v.1 ≠ [] ∨ v.2.weight.isNone ∨ v.2.volume.isNone ∨
          v.2.destination.isNone ∨ v.2.deadline.isNone then
        (.validationFailed v.1, store)
      else
        let shipment : StoredShipment :=
          { id := store.nextId
            warehouseId := uid
            weight := v.2.weight.getD 0
            volume := v.2.volume.getD 0
            destination := v.2.destination.getD ""
            deadline := v.2.deadline.getD 0
            status := "Pending"
            isOptimized := false }
        (.created shipment,
         { nextId := store.nextId + 1, shipments := store.shipments ++ [shipment] })

/-- The metrics object returned by `getShipmentMetrics`. -/
structure ShipmentMetrics where
  totalShipments : Nat
  optimizedShipments : Nat
  pendingShipments : Nat
  optimizationPercentage : ℚ
deriving DecidableEq, Repr

/-- Outcome of `getShipmentMetrics`. -/
inductive MetricsResult where
  | unauthenticated
  | forbidden
  | ok (metrics : ShipmentMetrics)
deriving DecidableEq, Repr

/-- Models `Number(x.toFixed(2))` for a nonnegative rational `x` under
the exact-rational reading of JS numbers: round to two decimal places,
ties away from zero. -/
def toFixed2 (q : ℚ) : ℚ :=
  ((⌊q * 100 + 1 / 2⌋ : ℚ)) / 100

/-- `getShipmentMetrics` from the controller: the three counts are the
owner-scoped `countDocuments` queries; the percentage divides optimized
by total (guarding total = 0) and rounds to two decimals. -/
def getShipmentMetrics (req : AuthenticatedRequest) (store : Store) : MetricsResult :=
  match req.userId with
  | none => .unauthenticated
  | some uid =>
    if req.role ≠ some .warehouse then .forbidden
    else
      let owned := store.shipments.filter (fun s => s.warehouseId == uid)
      let totalShipments := owned.length
      let optimizedShipments := (owned.filter (fun s => s.status == "Optimized")).length
      let pendingShipments := (owned.filter (fun s => s.status == "Pending")).length
      .ok
        { totalShipments
          optimizedShipments
          pendingShipments
          optimizationPercentage :=
            if totalShipments = 0 then 0
            else toFixed2 ((optimizedShipments : ℚ) / (totalShipments : ℚ) * 100) }

/-- The `updates` object accumulated by the update validator
(`ShipmentUpdatePayload` in the source): each field is present only if
it was present in the body and its rule passed. -/
structure ShipmentUpdatePayload where
  weight : Option ℚ
  volume : Option ℚ
  destination : Option String
  deadline : Option Int
  status : Option String
deriving DecidableEq, Repr

/-- Models `Object.keys(updates).length === 0`. -/
def ShipmentUpdatePayload.isEmpty (u : ShipmentUpdatePayload) : Bool :=
  u.weight.isNone && u.volume.isNone && u.destination.isNone &&
    u.deadline.isNone && u.status.isNone

/-- `validatePartialShipment` from the controller: per-field checks run
only for keys present in the body; error messages are collected in
source order.  The deadline is read from `body.deadline` only (the
create-side `date` alias is not consulted here). -/
def validatePartialShipment (body : Body) : List String × ShipmentUpdatePayload :=
  let wPresent : Bool := body.weight != .undefined
  let vPresent : Bool := body.volume != .undefined
  let dPresent : Bool := body.destination != .undefined
  let dlPresent : Bool := body.deadline != .undefined
  let stPresent : Bool := body.status != .undefined
  let dOk : Bool := match body.destination with
    | .str s => (jsTrim s).length != 0
    | _ => false
  let dl := parseDeadline body.deadline
  let stVal : Option String := match body.status with
    | .str s => if statusFlow.contains s then some s else none
    | _ => none
  ( (if wPresent && ! isPositiveNumber body.weight
       then ["Weight must be greater than 0"] else []) ++
    (if vPresent && ! isPositiveNumber body.volume
       then ["Volume must be greater than 0"] else []) ++
    (if dPresent && ! dOk
       then ["Destination must be a non-empty string"] else []) ++
    (if dlPresent && dl.isNone
       then ["Deadline must be a valid ISO date string"] else []) ++
    (if stPresent && stVal.isNone
       then [statusErrorMessage body.status] else []),
    { weight := if wPresent && isPositiveNumber body.weight
        then some (jsToNumber body.weight).toQ else none
      volume := if vPresent && isPositiveNumber body.volume
        then some (jsToNumber body.volume).toQ else none
      destination := if dPresent && dOk
        then (match body.destination with
          | .str s => some (jsTrim s)
          | _ => none)
        else none
      deadline := if dlPresent then dl else none
      status := if stPresent then stVal else none } )
where
  /-- the source pushes a type message for non-strings and an
  enumeration message for unrecognized strings -/
  statusErrorMessage : JSValue → String
    | .str _ => "Status must be one of Pending, Optimized, Booked, In Transit"
    | _ => "Status must be a string value"

/-- A repository call the update controller issues, in order. -/
inductive RepoOp where
  | findOne (id : Nat) (warehouseId : String)
  | save (shipment : StoredShipment)
deriving DecidableEq, Repr

/-- Outcome of `updateShipment`. -/
inductive UpdateResult where
  | unauthenticated
  | forbidden
  | validationFailed (details : List String)
  | noFields
  | notFound
  | invalidTransition (current requested : String)
  | ok (shipment : StoredShipment)
deriving DecidableEq, Repr

/-- Result, post-state and repository trace of one update request. -/
structure UpdateOutcome where
  result : UpdateResult
  store : Store
  repoOps : List RepoOp
deriving DecidableEq, Repr

/-- Models `Object.assign(shipment, updates)` followed by `save`:
fields present in `updates` overwrite, all others stay. -/
def applyUpdates (s : StoredShipment) (u : ShipmentUpdatePayload) : StoredShipment :=
  { s with
    weight := u.weight.getD s.weight
    volume := u.volume.getD s.volume
    destination := u.destination.getD s.destination
    deadline := u.deadline.getD s.deadline
    status := u.status.getD s.status }

/-- `updateShipment` from the controller: auth check, role check,
validation, empty-update check, owner-scoped lookup, state-machine
check when a status is present (status strings are nonempty, so the
`updates.status &&` truthiness test is a presence test), then merge and
save.  Saving replaces the document with the matching id. -/
def updateShipment (req : AuthenticatedRequest) (store : Store) : UpdateOutcome :=
  match req.userId with
  | none => ⟨.unauthenticated, store, []⟩
  | some uid =>
    if req.role ≠ some .warehouse then ⟨.forbidden, store, []⟩
    else
      let v := validatePartialShipment req.body
      if v.1 ≠ [] then ⟨.validationFailed v.1, store, []⟩
      else if v.2.isEmpty then ⟨.noFields, store, []⟩
      else
        match findOwned store.shipments req.paramId uid with
        | none => ⟨.notFound, store, [.findOne req.paramId uid]⟩
        | some shipment =>
          match v.2.status with
          | some requested =>
            if ¬ isValidStatusTransition shipment.status requested then
              ⟨.invalidTransition shipment.status requested, store,
               [.findOne req.paramId uid]⟩
            else
              saveMerged uid shipment v.2
          | none => saveMerged uid shipment v.2
where
  saveMerged (uid : String) (shipment : StoredShipment)
      (u : ShipmentUpdatePayload) : UpdateOutcome :=
    let merged := applyUpdates shipment u
    ⟨.ok merged,
     { store with
       shipments := store.shipments.map
         (fun t => if t.id == shipment.id then merged else t) },
     [.findOne req.paramId uid, .save merged]⟩

/-- Outcome of `deleteShipment`. -/
inductive DeleteResult where
  | unauthenticated
  | forbidden
  | notFound
  | inTransitConflict
  | deleted
deriving DecidableEq, Repr

/-- `deleteShipment` from the controller: auth check, role check,
owner-scoped lookup, refusal while In Transit, else removal of the
document (`shipment.deleteOne()`; document ids are unique, removal is
by id). -/
def deleteShipment (req : AuthenticatedRequest) (store : Store) :
    DeleteResult × Store :=
  match req.userId with
  | none => (.unauthenticated, store)
  | some uid =>
    if req.role ≠ some .warehouse then (.forbidden, store)
    else
      match findOwned store.shipments req.paramId uid with
      | none => (.notFound, store)
      | some shipment =>
        if shipment.status == "In Transit" then (.inTransitConflict, store)
        else
          (.deleted,
           { store with
             shipments := store.shipments.filter (fun t => t.id != shipment.id) })

/-! ## Helper lemmas -/

/-- `jsIndexOf` on the status flow, fully characterized. -/
lemma jsIndexOf_statusFlow (s : String) :
    jsIndexOf statusFlow s =
      if s = "Pending" then 0
      else if s = "Optimized" then 1
      else if s = "Booked" then 2
      else if s = "In Transit" then 3
      else -1 := by
  by_cases h1 : s = "Pending"
  · subst h1; decide
  by_cases h2 : s = "Optimized"
  · subst h2; decide
  by_cases h3 : s = "Booked"
  · subst h3; decide
  by_cases h4 : s = "In Transit"
  · subst h4; decide
  simp only [h1, h2, h3, h4, if_false]
  unfold jsIndexOf statusFlow
  rw [List.findIdx?_cons, List.findIdx?_cons, List.findIdx?_cons, List.findIdx?_cons]
  simp [Ne.symm h1, Ne.symm h2, Ne.symm h3, Ne.symm h4, List.findIdx?]

/-! ## C1: status transition rule -/

/-- C1: `isValidStatusTransition` accepts exactly the pairs whose
requested status is the immediate successor of the current status in
the ordered sequence Pending, Optimized, Booked, In Transit; every
other pair of strings — equal, backward, skipping, out of In Transit,
or involving a string outside the sequence — is rejected. -/
theorem isValidStatusTransition_iff_adjacent (current next : String) :
    isValidStatusTransition current next = true ↔
      ((current = "Pending" ∧ next = "Optimized") ∨
       (current = "Optimized" ∧ next = "Booked") ∨
       (current = "Booked" ∧ next = "In Transit")) := by
  unfold isValidStatusTransition
  rw [jsIndexOf_statusFlow current, jsIndexOf_statusFlow next]
  by_cases h1 : current = "Pending" <;>
    by_cases h2 : current = "Optimized" <;>
      by_cases h3 : current = "Booked" <;>
        by_cases h4 : current = "In Transit" <;>
          by_cases g1 : next = "Pending" <;>
            by_cases g2 : next = "Optimized" <;>
              by_cases g3 : next = "Booked" <;>
                by_cases g4 : next = "In Transit" <;>
                  simp_all

/-- Closed instance of C1. -/
theorem isValidStatusTransition_iff_adjacent_witness :
    isValidStatusTransition "Pending" "Optimized" = true ∧
      isValidStatusTransition "In Transit" "Pending" = false := by
  constructor
  · exact (isValidStatusTransition_iff_adjacent "Pending" "Optimized").mpr
      (Or.inl ⟨rfl, rfl⟩)
  · by_contra h
    rcases (isValidStatusTransition_iff_adjacent "In Transit" "Pending").mp
      (by simpa using h) with ⟨h1, _⟩ | ⟨h1, _⟩ | ⟨h1, _⟩ <;> simp at h1

/-- A successful owner-scoped lookup returns a stored document matching
both keys. -/
lemma findOwned_eq_some {shipments : List StoredShipment} {id : Nat}
    {uid : String} {s : StoredShipment}
    (h : findOwned shipments id uid = some s) :
    s ∈ shipments ∧ s.id = id ∧ s.warehouseId = uid := by
  unfold findOwned at h
  have hmem := List.mem_of_find?_eq_some h
  have hp := List.find?_some h
  simp only [Bool.and_eq_true, beq_iff_eq] at hp
  exact ⟨hmem, hp.1, hp.2⟩

/-- The owner-scoped lookup misses iff no stored document matches. -/
lemma findOwned_eq_none {shipments : List StoredShipment} {id : Nat}
    {uid : String} :
    findOwned shipments id uid = none ↔
      ∀ s ∈ shipments, ¬(s.id = id ∧ s.warehouseId = uid) := by
  unfold findOwned
  rw [List.find?_eq_none]
  constructor
  · intro h s hs ⟨h1, h2⟩
    have := h s hs
    simp [h1, h2] at this
  · intro h s hs
    simp only [Bool.and_eq_true, beq_iff_eq]
    intro ⟨h1, h2⟩
    exact h s hs ⟨h1, h2⟩

/-- In a store whose ids are pairwise distinct, two stored documents
with the same id are the same document. -/
lemma eq_of_mem_of_same_id {l : List StoredShipment}
    (hu : l.Pairwise (fun a b => a.id ≠ b.id)) {a b : StoredShipment}
    (ha : a ∈ l) (hb : b ∈ l) (h : a.id = b.id) : a = b := by
  induction l with
  | nil => cases ha
  | cons x xs ih =>
    rcases List.pairwise_cons.mp hu with ⟨hx, hxs⟩
    rcases List.mem_cons.mp ha with rfl | ha'
    · rcases List.mem_cons.mp hb with rfl | hb'
      · rfl
      · exact absurd h (hx b hb')
    · rcases List.mem_cons.mp hb with rfl | hb'
      · exact absurd h.symm (hx a ha')
      · exact ih hxs ha' hb'

/-! ## C2: deletion and the In Transit guard -/

/-- C2: a delete request aimed at an In Transit shipment never deletes
and leaves the store untouched, whatever the principal and role; a
delete by the owning warehouse principal of a shipment in any other
status succeeds and leaves no document with that id behind. -/
theorem deleteShipment_in_transit_guard (req : AuthenticatedRequest) (store : Store) :
    ((∀ s ∈ store.shipments, s.id = req.paramId → s.status = "In Transit") →
      (deleteShipment req store).2 = store ∧
        (deleteShipment req store).1 ≠ .deleted) ∧
    (∀ uid s, req.userId = some uid → req.role = some .warehouse →
      s ∈ store.shipments → s.id = req.paramId → s.warehouseId = uid →
      s.status ≠ "In Transit" →
      store.shipments.Pairwise (fun a b => a.id ≠ b.id) →
      (deleteShipment req store).1 = .deleted ∧
        ∀ t ∈ (deleteShipment req store).2.shipments, t.id ≠ req.paramId) := by
  constructor
  · intro h
    unfold deleteShipment
    cases hu : req.userId with
    | none => exact ⟨rfl, by simp⟩
    | some uid =>
      by_cases hr : req.role = some .warehouse
      · simp only [hr, ne_eq, not_true_eq_false, if_false]
        cases hf : findOwned store.shipments req.paramId uid with
        | none => exact ⟨rfl, by simp⟩
        | some s =>
          obtain ⟨hmem, hid, _⟩ := findOwned_eq_some hf
          have hst : s.status = "In Transit" := h s hmem hid
          simp only [hst, beq_self_eq_true, if_true]
          exact ⟨by simp, by simp⟩
      · simp only [hr, ne_eq, not_false_eq_true, if_true]
        exact ⟨by simp, by simp⟩
  · intro uid s hu hr hmem hid howner hst hdistinct
    unfold deleteShipment
    rw [hu]
    simp only [hr, ne_eq, not_true_eq_false, if_false]
    cases hf : findOwned store.shipments req.paramId uid with
    | none =>
      exact absurd hid (by
        have := findOwned_eq_none.mp hf s hmem
        intro h1
        exact this ⟨h1, howner⟩)
    | some m =>
      obtain ⟨hmemM, hidM, _⟩ := findOwned_eq_some hf
      have : m = s := eq_of_mem_of_same_id hdistinct hmemM hmem (by rw [hidM, hid])
      subst this
      have hbeq : (m.status == "In Transit") = false := by
        simpa using hst
      simp only [hbeq, Bool.false_eq_true, if_false]
      refine ⟨by simp, ?_⟩
      intro t ht
      simp only [List.mem_filter, bne_iff_ne, ne_eq] at ht
      rw [← hidM]
      exact ht.2

/-- Closed instance of C2: an In Transit shipment survives a delete by
its owner; a Pending shipment is deleted and unretrievable. -/
theorem deleteShipment_in_transit_guard_witness :
    (deleteShipment
        { userId := some "u1", role := some .warehouse,
          body := { weight := .undefined, volume := .undefined,
                    destination := .undefined, deadline := .undefined,
                    date := .undefined, status := .undefined,
                    isOptimized := .undefined },
          paramId := 1 }
        { nextId := 2,
          shipments := [{ id := 1, warehouseId := "u1", weight := 10,
                          volume := 2, destination := "Reno", deadline := 0,
                          status := "In Transit", isOptimized := false }] }).1
      ≠ .deleted ∧
    (deleteShipment
        { userId := some "u1", role := some .warehouse,
          body := { weight := .undefined, volume := .undefined,
                    destination := .undefined, deadline := .undefined,
                    date := .undefined, status := .undefined,
                    isOptimized := .undefined },
          paramId := 1 }
        { nextId := 2,
          shipments := [{ id := 1, warehouseId := "u1", weight := 10,
                          volume := 2, destination := "Reno", deadline := 0,
                          status := "Pending", isOptimized := false }] }).1
      = .deleted := by
  constructor
  · exact ((deleteShipment_in_transit_guard _ _).1
      (by intro s hs _; simp at hs; rw [hs])).2
  · exact ((deleteShipment_in_transit_guard _ _).2 "u1"
      { id := 1, warehouseId := "u1", weight := 10, volume := 2,
        destination := "Reno", deadline := 0, status := "Pending",
        isOptimized := false }
      rfl rfl (by simp) rfl rfl (by decide) (by simp)).1

/-! ## C3: ownership mismatch is indistinguishable from absence -/

/-- C3: for an authenticated WAREHOUSE principal, whenever no stored
shipment with the requested id is owned by the caller — because the id
belongs to a different principal or because it does not exist at all —
delete answers exactly `notFound` with the store untouched, and update
(once its payload passes validation with at least one field) answers
exactly `notFound` after the single lookup, with the store untouched.
In particular neither ever answers `forbidden`, so the caller cannot
tell a foreign shipment from an absent one. -/
theorem ownership_mismatch_reads_as_not_found (req : AuthenticatedRequest)
    (store : Store) (uid : String)
    (hu : req.userId = some uid) (hr : req.role = some .warehouse)
    (h : ∀ s ∈ store.shipments, s.id = req.paramId → s.warehouseId ≠ uid) :
    deleteShipment req store = (.notFound, store) ∧
    ((validatePartialShipment req.body).1 = [] →
      (validatePartialShipment req.body).2.isEmpty = false →
      updateShipment req store = ⟨.notFound, store, [.findOne req.paramId uid]⟩) := by
  have hnone : findOwned store.shipments req.paramId uid = none := by
    rw [findOwned_eq_none]
    intro s hs ⟨h1, h2⟩
    exact h s hs h1 h2
  constructor
  · unfold deleteShipment
    rw [hu]
    simp only [hr, ne_eq, not_true_eq_false, if_false]
    rw [hnone]
  · intro hv he
    unfold updateShipment
    rw [hu]
    simp only [hr, ne_eq, not_true_eq_false, if_false, hv, he,
      Bool.false_eq_true, not_true_eq_false]
    rw [hnone]

/-- Closed instance of C3: a shipment owned by a different warehouse
principal reads as not found for both delete and update. -/
theorem ownership_mismatch_reads_as_not_found_witness :
    deleteShipment
        { userId := some "u1", role := some .warehouse,
          body := { weight := .num (.finite 5), volume := .undefined,
                    destination := .undefined, deadline := .undefined,
                    date := .undefined, status := .undefined,
                    isOptimized := .undefined },
          paramId := 1 }
        { nextId := 2,
          shipments := [{ id := 1, warehouseId := "u2", weight := 10,
                          volume := 2, destination := "Reno", deadline := 0,
                          status := "Pending", isOptimized := false }] }
      = (.notFound,
         { nextId := 2,
           shipments := [{ id := 1, warehouseId := "u2", weight := 10,
                           volume := 2, destination := "Reno", deadline := 0,
                           status := "Pending", isOptimized := false }] }) ∧
    (updateShipment
        { userId := some "u1", role := some .warehouse,
          body := { weight := .num (.finite 5), volume := .undefined,
                    destination := .undefined, deadline := .undefined,
                    date := .undefined, status := .undefined,
                    isOptimized := .undefined },
          paramId := 1 }
        { nextId := 2,
          shipments := [{ id := 1, warehouseId := "u2", weight := 10,
                          volume := 2, destination := "Reno", deadline := 0,
                          status := "Pending", isOptimized := false }] }).result
      = .notFound := by
  have hmain := ownership_mismatch_reads_as_not_found
    { userId := some "u1", role := some .warehouse,
      body := { weight := .num (.finite 5), volume := .undefined,
                destination := .undefined, deadline := .undefined,
                date := .undefined, status := .undefined,
                isOptimized := .undefined },
      paramId := 1 }
    { nextId := 2,
      shipments := [{ id := 1, warehouseId := "u2", weight := 10,
                      volume := 2, destination := "Reno", deadline := 0,
                      status := "Pending", isOptimized := false }] }
    "u1" rfl rfl
    (by intro s hs _; simp at hs; rw [hs]; decide)
  exact ⟨hmain.1, by rw [hmain.2 (by decide) (by decide)]⟩

/-! ## C4: create forces the initial lifecycle state -/

/-- C4: every successfully created shipment is persisted and returned
with status Pending and isOptimized false, whatever status or
isOptimized values the request body carried. -/
theorem createShipment_forces_pending (req : AuthenticatedRequest)
    (store : Store) (s : StoredShipment) (store2 : Store)
    (h : createShipment req store = (.created s, store2)) :
    s.status = "Pending" ∧ s.isOptimized = false ∧ s ∈ store2.shipments := by
  unfold createShipment at h
  cases hu : req.userId with
  | none => rw [hu] at h; simp at h
  | some uid =>
    rw [hu] at h
    by_cases hr : req.role = some .warehouse
    · simp only [hr, ne_eq, not_true_eq_false, if_false] at h
      split at h
      · simp at h
      · rw [Prod.mk.injEq] at h
        obtain ⟨h1, h2⟩ := h
        cases h1
        refine ⟨rfl, rfl, ?_⟩
        rw [← h2]
        simp
    · simp only [hr, ne_eq, not_false_eq_true, if_true] at h
      simp at h

/-- Closed instance of C4: the creation scenario of the spec, with a
status and isOptimized smuggled into the body; both are ignored. -/
theorem createShipment_forces_pending_witness :
    ({ id := 5, warehouseId := "u1", weight := 10, volume := 2,
       destination := "Reno",
       deadline := (((((2025 * 12 + 1) * 31 + 1) * 24 + 0) * 60 + 0) * 60 + 0 : Int) * 1000,
       status := "Pending", isOptimized := false } : StoredShipment).status = "Pending" ∧
    ({ id := 5, warehouseId := "u1", weight := 10, volume := 2,
       destination := "Reno",
       deadline := (((((2025 * 12 + 1) * 31 + 1) * 24 + 0) * 60 + 0) * 60 + 0 : Int) * 1000,
       status := "Pending", isOptimized := false } : StoredShipment).isOptimized = false := by
  have h := createShipment_forces_pending
    { userId := some "u1", role := some .warehouse,
      body := { weight := .num (.finite 10), volume := .num (.finite 2),
                destination := .str "Reno",
                deadline := .str "2025-01-01T00:00:00Z",
                date := .undefined, status := .str "Booked",
                isOptimized := .bool true },
      paramId := 0 }
    { nextId := 5, shipments := [] }
    { id := 5, warehouseId := "u1", weight := 10, volume := 2,
      destination := "Reno",
      deadline := (((((2025 * 12 + 1) * 31 + 1) * 24 + 0) * 60 + 0) * 60 + 0 : Int) * 1000,
      status := "Pending", isOptimized := false }
    { nextId := 6,
      shipments := [{ id := 5, warehouseId := "u1", weight := 10, volume := 2,
                      destination := "Reno",
                      deadline := (((((2025 * 12 + 1) * 31 + 1) * 24 + 0) * 60 + 0) * 60 + 0 : Int) * 1000,
                      status := "Pending", isOptimized := false }] }
    (by decide)
  exact ⟨h.1, h.2.1⟩

/-! ## C5: empty validated update set -/

/-- C5: when the update payload validates with zero fields, the request
is answered with the dedicated no-fields outcome — a constructor
distinct from `validationFailed` — and no repository call is made: the
trace is empty and the store is untouched. -/
theorem updateShipment_no_fields_short_circuit (req : AuthenticatedRequest)
    (store : Store) (uid : String)
    (hu : req.userId = some uid) (hr : req.role = some .warehouse)
    (hv : (validatePartialShipment req.body).1 = [])
    (he : (validatePartialShipment req.body).2.isEmpty = true) :
    updateShipment req store = ⟨.noFields, store, []⟩ := by
  unfold updateShipment
  rw [hu]
  simp [hr, hv, he]

/-- Closed instance of C5: the empty body. -/
theorem updateShipment_no_fields_short_circuit_witness :
    updateShipment
        { userId := some "u1", role := some .warehouse,
          body := { weight := .undefined, volume := .undefined,
                    destination := .undefined, deadline := .undefined,
                    date := .undefined, status := .undefined,
                    isOptimized := .undefined },
          paramId := 1 }
        { nextId := 2,
          shipments := [{ id := 1, warehouseId := "u1", weight := 10,
                          volume := 2, destination := "Reno", deadline := 0,
                          status := "Pending", isOptimized := false }] }
      = ⟨.noFields,
         { nextId := 2,
           shipments := [{ id := 1, warehouseId := "u1", weight := 10,
                           volume := 2, destination := "Reno", deadline := 0,
                           status := "Pending", isOptimized := false }] },
         []⟩ :=
  updateShipment_no_fields_short_circuit _ _ "u1" rfl rfl (by decide) (by decide)

/-! ## C6: create validation collects every violated rule -/

/-- C6: create validation reports the weight, volume, destination and
deadline messages each exactly when its rule is violated, its error
list has one entry per violated rule (so it never stops at the first),
and a payload violating all four rules yields all four messages. -/
theorem validateShipmentPayload_collects_all_errors (body : Body) :
    ("Weight must be a number greater than 0" ∈ (validateShipmentPayload body).1 ↔
        isPositiveNumber body.weight = false) ∧
    ("Volume must be a number greater than 0" ∈ (validateShipmentPayload body).1 ↔
        isPositiveNumber body.volume = false) ∧
    ("Destination is required" ∈ (validateShipmentPayload body).1 ↔
        (validateShipmentPayload body).2.destination = none) ∧
    ("Deadline must be a valid ISO date string" ∈ (validateShipmentPayload body).1 ↔
        (validateShipmentPayload body).2.deadline = none) ∧
    (validateShipmentPayload body).1.length =
      ((if isPositiveNumber body.weight = false then 1 else 0) +
       (if isPositiveNumber body.volume = false then 1 else 0) +
       (if (validateShipmentPayload body).2.destination = none then 1 else 0) +
       (if (validateShipmentPayload body).2.deadline = none then 1 else 0)) ∧
    (isPositiveNumber body.weight = false →
      isPositiveNumber body.volume = false →
      (validateShipmentPayload body).2.destination = none →
      (validateShipmentPayload body).2.deadline = none →
      (validateShipmentPayload body).1 =
        ["Weight must be a number greater than 0",
         "Volume must be a number greater than 0",
         "Destination is required",
         "Deadline must be a valid ISO date string"]) := by
  unfold validateShipmentPayload
  by_cases hw : isPositiveNumber body.weight <;>
    by_cases hv : isPositiveNumber body.volume <;>
      rcases hdl : parseDeadline
          (nullishCoalesce body.deadline (nullishCoalesce body.date .null)) with
        _ | t <;>
      rcases hd : body.destination with _ | s | _ | _ | _ | _ | _ <;>
        simp_all <;>
        rcases hlen : ((jsTrim s).length != 0) with _ | _ <;> simp_all

/-- Closed instance of C6: a payload violating all four rules gets all
four messages at once. -/
theorem validateShipmentPayload_collects_all_errors_witness :
    (validateShipmentPayload
        { weight := .num (.finite 0), volume := .str "abc",
          destination := .str "   ", deadline := .undefined,
          date := .undefined, status := .undefined,
          isOptimized := .undefined }).1 =
      ["Weight must be a number greater than 0",
       "Volume must be a number greater than 0",
       "Destination is required",
       "Deadline must be a valid ISO date string"] :=
  (validateShipmentPayload_collects_all_errors
    { weight := .num (.finite 0), volume := .str "abc",
      destination := .str "   ", deadline := .undefined,
      date := .undefined, status := .undefined,
      isOptimized := .undefined }).2.2.2.2.2
    (by decide) (by decide) (by decide) (by decide)

/-! ## C7: the positive-number coercion -/

/-- After a `0x`/`0X`/`0o`/`0O`/`0b`/`0B` prefix the decimal grammar
never matches: the sign parser falls into the mantissa, which stops at
the radix letter. -/
lemma parseSigned_radix_prefix (c2 : Char)
    (h : c2 = 'x' ∨ c2 = 'X' ∨ c2 = 'o' ∨ c2 = 'O' ∨ c2 = 'b' ∨ c2 = 'B')
    (rest : List Char) : strToNum.parseSigned ('0' :: c2 :: rest) = none := by
  rcases h with rfl | rfl | rfl | rfl | rfl | rfl <;>
    simp [strToNum.parseSigned, strToNum.parseMantissa, List.takeWhile,
      List.dropWhile]

/-- Every string with a finite standard decimal parse gets the same
value from the full `Number` coercion: the radix-literal branches fire
only on strings the decimal grammar rejects. -/
lemma decimal_parse_subset_of_number (s : String) (q : ℚ)
    (h : decimalStrToNum s = .finite q) : strToNum s = .finite q := by
  unfold decimalStrToNum at h
  unfold strToNum
  by_cases h1 : jsTrim s = ""
  · rw [if_pos h1] at h ⊢; exact h
  by_cases h2 : jsTrim s = "Infinity" ∨ jsTrim s = "+Infinity"
  · rw [if_neg h1, if_pos h2] at h; cases h
  by_cases h3 : jsTrim s = "-Infinity"
  · rw [if_neg h1, if_neg h2, if_pos h3] at h; cases h
  rw [if_neg h1, if_neg h2, if_neg h3] at h ⊢
  split
  · rename_i heq
    rw [heq, parseSigned_radix_prefix 'x' (by simp)] at h
    cases h
  · rename_i heq
    rw [heq, parseSigned_radix_prefix 'X' (by simp)] at h
    cases h
  · rename_i heq
    rw [heq, parseSigned_radix_prefix 'o' (by simp)] at h
    cases h
  · rename_i heq
    rw [heq, parseSigned_radix_prefix 'O' (by simp)] at h
    cases h
  · rename_i heq
    rw [heq, parseSigned_radix_prefix 'b' (by simp)] at h
    cases h
  · rename_i heq
    rw [heq, parseSigned_radix_prefix 'B' (by simp)] at h
    cases h
  · exact h

/-- C7 counterexample: the controller accepts the string 0x10 — JS
`Number` parses the radix-prefixed literal to 16, a finite number
greater than zero — although its standard decimal parse is NaN.  This
refutes the claim that a string is accepted only when its standard
decimal parse is a finite number greater than zero. -/
theorem isPositiveNumber_hex_string_counterexample :
    isPositiveNumber (.str "0x10") = true ∧
    decimalStrToNum "0x10" = .nan ∧
    strToNum "0x10" = .finite 16 := by
  refine ⟨by decide, by decide, by decide⟩

/-- C7 (amended): `isPositiveNumber` accepts a value exactly when it is
a finite number greater than zero or a string that the JS `Number`
string coercion — standard decimal parsing or a radix-prefixed
(`0x`/`0o`/`0b`) integer literal — maps to a finite number greater than
zero.  Strings with a positive finite standard decimal parse are still
all accepted; NaN, the infinities, zero, negatives and every non-number
non-string kind are rejected. -/
theorem isPositiveNumber_number_coercion_characterization :
    (∀ v : JSValue, isPositiveNumber v = true ↔
      ((∃ q : ℚ, v = .num (.finite q) ∧ 0 < q) ∨
       (∃ s : String, ∃ q : ℚ, v = .str s ∧ strToNum s = .finite q ∧ 0 < q))) ∧
    (∀ s : String, ∀ q : ℚ, decimalStrToNum s = .finite q → 0 < q →
      isPositiveNumber (.str s) = true) ∧
    isPositiveNumber (.str "0x10") = true ∧
    (∀ q : ℚ, q ≤ 0 → isPositiveNumber (.num (.finite q)) = false) ∧
    isPositiveNumber (.num .nan) = false ∧
    isPositiveNumber (.num .posInf) = false ∧
    isPositiveNumber (.num .negInf) = false ∧
    (∀ b : Bool, isPositiveNumber (.bool b) = false) ∧
    isPositiveNumber .null = false ∧
    isPositiveNumber .undefined = false ∧
    isPositiveNumber .object = false ∧
    (∀ t : Option Int, isPositiveNumber (.date t) = false) := by
  refine ⟨?_, ?_, by decide, ?_, rfl, rfl, rfl, fun _ => rfl, rfl, rfl, rfl,
    fun _ => rfl⟩
  · intro v
    cases v with
    | num n =>
      cases n <;>
        simp [isPositiveNumber, JNum.isFinite, JNum.gtZero]
    | str s =>
      cases hn : strToNum s <;>
        simp [isPositiveNumber, JNum.isFinite, JNum.gtZero, hn]
    | bool b => simp [isPositiveNumber]
    | date t => simp [isPositiveNumber]
    | null => simp [isPositiveNumber]
    | undefined => simp [isPositiveNumber]
    | object => simp [isPositiveNumber]
  · intro s q h hq
    have hs := decimal_parse_subset_of_number s q h
    simp [isPositiveNumber, hs, JNum.isFinite, JNum.gtZero, hq]
  · intro q hq
    simp [isPositiveNumber, JNum.isFinite, JNum.gtZero, not_lt.mpr hq]

/-- Closed instance of the amended C7: a positive number literal and a
positive decimal string are accepted, a nonpositive number rejected. -/
theorem isPositiveNumber_number_coercion_characterization_witness :
    isPositiveNumber (.num (.finite 2)) = true ∧
      isPositiveNumber (.num (.finite (-1))) = false ∧
      isPositiveNumber (.str "3") = true :=
  ⟨(isPositiveNumber_number_coercion_characterization.1 (.num (.finite 2))).mpr
      (Or.inl ⟨2, rfl, by norm_num⟩),
   isPositiveNumber_number_coercion_characterization.2.2.2.1 (-1) (by norm_num),
   isPositiveNumber_number_coercion_characterization.2.1 "3" 3 (by decide)
     (by decide)⟩

/-! ## C8: the optimization percentage -/

/-- Rounding one third of one hundred to two decimals gives 33.33. -/
lemma toFixed2_one_third_of_hundred : toFixed2 ((1 : ℚ) / 3 * 100) = 3333 / 100 := by
  unfold toFixed2
  rw [show ((1 : ℚ) / 3 * 100 * 100 + 1 / 2) = 20003 / 6 by norm_num]
  rw [show ⌊(20003 : ℚ) / 6⌋ = 3333 by rw [Int.floor_eq_iff] ; norm_num]
  norm_num

/-- C8: for an authenticated warehouse principal the metrics call
returns a percentage equal to (optimized / total) * 100 rounded to two
decimal places, ties up; it is exactly 0 when the total is 0, and
exactly 33.33 for 1 optimized shipment out of 3. -/
theorem getShipmentMetrics_percentage (req : AuthenticatedRequest)
    (store : Store) (uid : String) (m : ShipmentMetrics)
    (hu : req.userId = some uid) (hr : req.role = some .warehouse)
    (hm : getShipmentMetrics req store = .ok m) :
    (m.totalShipments = 0 → m.optimizationPercentage = 0) ∧
    (0 < m.totalShipments →
      m.optimizationPercentage =
        ((⌊(m.optimizedShipments * 10000 : ℚ) / (m.totalShipments : ℚ) + 1 / 2⌋ : ℚ)) / 100) ∧
    (m.totalShipments = 3 → m.optimizedShipments = 1 →
      m.optimizationPercentage = 3333 / 100) := by
  unfold getShipmentMetrics at hm
  rw [hu] at hm
  simp only [hr, ne_eq, not_true_eq_false, if_false, MetricsResult.ok.injEq] at hm
  subst hm
  dsimp only
  refine ⟨?_, ?_, ?_⟩
  · intro h0
    rw [if_pos h0]
  · intro hpos
    have hne : (store.shipments.filter (fun s => s.warehouseId == uid)).length ≠ 0 :=
      Nat.pos_iff_ne_zero.mp hpos
    rw [if_neg hne]
    unfold toFixed2
    have hneQ : ((store.shipments.filter (fun s => s.warehouseId == uid)).length : ℚ) ≠ 0 := by
      exact_mod_cast hne
    congr 2
    field_simp
    ring_nf
  · intro h3 h1
    rw [h3, h1, if_neg (by norm_num)]
    push_cast
    exact toFixed2_one_third_of_hundred

/-- Closed instance of C8: an owner with no shipments gets percentage
exactly 0. -/
theorem getShipmentMetrics_percentage_witness :
    ({ totalShipments := 0, optimizedShipments := 0, pendingShipments := 0,
       optimizationPercentage := 0 } : ShipmentMetrics).optimizationPercentage = 0 :=
  (getShipmentMetrics_percentage
    { userId := some "u1", role := some .warehouse,
      body := { weight := .undefined, volume := .undefined,
                destination := .undefined, deadline := .undefined,
                date := .undefined, status := .undefined,
                isOptimized := .undefined },
      paramId := 0 }
    { nextId := 0, shipments := [] } "u1"
    { totalShipments := 0, optimizedShipments := 0, pendingShipments := 0,
      optimizationPercentage := 0 }
    rfl rfl (by decide)).1 rfl

/-! ## C9: per-field agreement between the two validators -/

/-- C9 counterexample: a payload supplying a deadline only under the
legacy alias `date` validates under create with the deadline included,
but partial-update validation ignores the alias entirely: it returns no
error, no deadline, and an empty field set (so the request would be
answered with the no-fields error, not an update). -/
theorem update_ignores_date_alias_counterexample :
    ((validatePartialShipment
        { weight := .undefined, volume := .undefined,
          destination := .undefined, deadline := .undefined,
          date := .str "2025-01-01", status := .undefined,
          isOptimized := .undefined }).2.deadline = none) ∧
    ((validatePartialShipment
        { weight := .undefined, volume := .undefined,
          destination := .undefined, deadline := .undefined,
          date := .str "2025-01-01", status := .undefined,
          isOptimized := .undefined }).1 = []) ∧
    ((validatePartialShipment
        { weight := .undefined, volume := .undefined,
          destination := .undefined, deadline := .undefined,
          date := .str "2025-01-01", status := .undefined,
          isOptimized := .undefined }).2.isEmpty = true) ∧
    ((validateShipmentPayload
        { weight := .undefined, volume := .undefined,
          destination := .undefined, deadline := .undefined,
          date := .str "2025-01-01", status := .undefined,
          isOptimized := .undefined }).2.deadline ≠ none) := by
  refine ⟨by decide, by decide, by decide, by decide⟩

/-- C9 (amended): partial-update validation applies the same per-field
rules as create validation to weight, volume, destination and to a
deadline supplied under the `deadline` key, but the legacy `date`
alias is honoured only by create validation and is ignored by
partial-update validation. -/
theorem update_fields_match_create_except_date_alias (body : Body) :
    (body.weight ≠ .undefined →
      (validatePartialShipment body).2.weight = (validateShipmentPayload body).2.weight) ∧
    (body.volume ≠ .undefined →
      (validatePartialShipment body).2.volume = (validateShipmentPayload body).2.volume) ∧
    (body.destination ≠ .undefined →
      (validatePartialShipment body).2.destination =
        (validateShipmentPayload body).2.destination) ∧
    (body.deadline ≠ .undefined → body.deadline ≠ .null →
      (validatePartialShipment body).2.deadline =
        (validateShipmentPayload body).2.deadline) ∧
    (∀ v : JSValue, validatePartialShipment
        { weight := body.weight, volume := body.volume,
          destination := body.destination, deadline := body.deadline,
          date := v, status := body.status, isOptimized := body.isOptimized }
      = validatePartialShipment body) := by
  refine ⟨?_, ?_, ?_, ?_, ?_⟩
  · intro h
    have hp : (body.weight != JSValue.undefined) = true := bne_iff_ne.mpr h
    unfold validatePartialShipment validateShipmentPayload
    simp only [hp, Bool.true_and]
  · intro h
    have hp : (body.volume != JSValue.undefined) = true := bne_iff_ne.mpr h
    unfold validatePartialShipment validateShipmentPayload
    simp only [hp, Bool.true_and]
  · intro h
    have hp : (body.destination != JSValue.undefined) = true := bne_iff_ne.mpr h
    unfold validatePartialShipment validateShipmentPayload
    simp only [hp, Bool.true_and]
    rcases body.destination with _ | s | _ | _ | _ | _ | _ <;> simp
  · intro h hnull
    have hp : (body.deadline != JSValue.undefined) = true := bne_iff_ne.mpr h
    have hnn : body.deadline.isNullish = false := by
      rcases hdl : body.deadline with _ | _ | _ | _ | _ | _ | _ <;>
        simp_all [JSValue.isNullish]
    unfold validatePartialShipment validateShipmentPayload
    simp only [hp, if_true, nullishCoalesce, hnn, Bool.false_eq_true, if_false]
  · intro v
    cases body
    rfl

/-- Closed instance of the amended C9: a weight present under the
`weight` key validates identically in both validators. -/
theorem update_fields_match_create_except_date_alias_witness :
    (validatePartialShipment
        { weight := .num (.finite 5), volume := .undefined,
          destination := .undefined, deadline := .undefined,
          date := .undefined, status := .undefined,
          isOptimized := .undefined }).2.weight =
      (validateShipmentPayload
        { weight := .num (.finite 5), volume := .undefined,
          destination := .undefined, deadline := .undefined,
          date := .undefined, status := .undefined,
          isOptimized := .undefined }).2.weight :=
  (update_fields_match_create_except_date_alias
    { weight := .num (.finite 5), volume := .undefined,
      destination := .undefined, deadline := .undefined,
      date := .undefined, status := .undefined,
      isOptimized := .undefined }).1 (by decide)

/-! ## C10: successful updates frame every untouched field -/

/-- C10: a successful update returns a merge of the stored document
with exactly the validated fields: the id, the owner and isOptimized
are always carried over unchanged (even when the update sets status to
Optimized), and every field absent from the validated update set keeps
its stored value. -/
theorem updateShipment_frames_untouched_fields (req : AuthenticatedRequest)
    (store : Store) (uid : String) (s s2 : StoredShipment)
    (hu : req.userId = some uid)
    (hf : findOwned store.shipments req.paramId uid = some s)
    (hok : (updateShipment req store).result = .ok s2) :
    s2.id = s.id ∧
    s2.warehouseId = s.warehouseId ∧
    s2.isOptimized = s.isOptimized ∧
    ((validatePartialShipment req.body).2.weight = none → s2.weight = s.weight) ∧
    ((validatePartialShipment req.body).2.volume = none → s2.volume = s.volume) ∧
    ((validatePartialShipment req.body).2.destination = none →
      s2.destination = s.destination) ∧
    ((validatePartialShipment req.body).2.deadline = none → s2.deadline = s.deadline) ∧
    ((validatePartialShipment req.body).2.status = none → s2.status = s.status) := by
  unfold updateShipment at hok
  rw [hu] at hok
  by_cases hr : req.role = some .warehouse
  · simp only [hr, ne_eq, not_true_eq_false, if_false] at hok
    by_cases hv : (validatePartialShipment req.body).1 = []
    · simp only [hv, not_true_eq_false, if_false] at hok
      by_cases he : (validatePartialShipment req.body).2.isEmpty = true
      · simp only [he, if_true] at hok
        cases hok
      · simp only [he, Bool.false_eq_true, if_false] at hok
        rw [hf] at hok
        have hmerge : s2 = applyUpdates s (validatePartialShipment req.body).2 := by
          rcases hst : (validatePartialShipment req.body).2.status with _ | requested
          · rw [hst] at hok
            simp only [updateShipment.saveMerged, UpdateResult.ok.injEq] at hok
            exact hok.symm
          · rw [hst] at hok
            by_cases htr : isValidStatusTransition s.status requested = true
            · simp only [htr, not_true_eq_false, if_false,
                updateShipment.saveMerged, UpdateResult.ok.injEq] at hok
              exact hok.symm
            · simp only [htr, Bool.false_eq_true, not_false_eq_true, if_true] at hok
              cases hok
        subst hmerge
        unfold applyUpdates
        refine ⟨rfl, rfl, rfl, ?_, ?_, ?_, ?_, ?_⟩ <;>
          intro hn <;> simp [hn]
    · simp only [hv, not_false_eq_true, if_true] at hok
      cases hok
  · simp only [hr, ne_eq, not_false_eq_true, if_true] at hok
    cases hok

/-- Closed instance of C10: updating only the status to Optimized
leaves isOptimized (and all other untouched fields) unchanged. -/
theorem updateShipment_frames_untouched_fields_witness :
    ({ id := 1, warehouseId := "u1", weight := 10, volume := 2,
       destination := "Reno", deadline := 0, status := "Optimized",
       isOptimized := false } : StoredShipment).isOptimized =
      ({ id := 1, warehouseId := "u1", weight := 10, volume := 2,
         destination := "Reno", deadline := 0, status := "Pending",
         isOptimized := false } : StoredShipment).isOptimized :=
  (updateShipment_frames_untouched_fields
    { userId := some "u1", role := some .warehouse,
      body := { weight := .undefined, volume := .undefined,
                destination := .undefined, deadline := .undefined,
                date := .undefined, status := .str "Optimized",
                isOptimized := .undefined },
      paramId := 1 }
    { nextId := 2,
      shipments := [{ id := 1, warehouseId := "u1", weight := 10,
                      volume := 2, destination := "Reno", deadline := 0,
                      status := "Pending", isOptimized := false }] }
    "u1"
    { id := 1, warehouseId := "u1", weight := 10, volume := 2,
      destination := "Reno", deadline := 0, status := "Pending",
      isOptimized := false }
    { id := 1, warehouseId := "u1", weight := 10, volume := 2,
      destination := "Reno", deadline := 0, status := "Optimized",
      isOptimized := false }
    rfl (by decide) (by decide)).2.2.1
